import Mathlib

/-!
Verification of the cc-glue-vpc stacks.

The repository declares three CDKTF stacks (src/main.ts, src/infra/main.ts,
src/unnamed/part_000), each a constructor that composes AWS resource
declarations: a VPC with tiered subnets and routing, security groups with
rules, random passwords stored in Secrets Manager secrets, and a Glue job
with an IAM policy. Composition is pure declaration, so every stack is
embedded here as concrete Lean data transcribed from the constructors:

* `NetworkTopology` values for the subnet/route/gateway declarations
  (`setupNetworking` in src/infra/main.ts, the constructor of
  src/unnamed/part_000);
* `SGRule` lists for the `SecurityGroupRule` declarations of each variant;
* `ResourceNode` graphs (properties as lists of literal/reference atoms,
  mirroring how CDKTF tokens defer attribute values) for the secret-flow
  claims;
* `PolicyStatement` lists for the Glue job IAM policy documents.

Properties are stated over these transcriptions and settled by computation.
-/

/-! ## CIDR blocks -/

/-- A CIDR block: base IPv4 address as a `Nat` plus the routing mask length. -/
structure Cidr where
  addr : Nat
  maskLen : Nat
deriving DecidableEq, Repr

/-- Assemble an IPv4 address from its four dotted-quad components. -/
def ipv4 (a b c d : Nat) : Nat :=
  ((a * 256 + b) * 256 + c) * 256 + d

/-- Number of addresses covered by a CIDR block. -/
def Cidr.size (c : Cidr) : Nat := 2 ^ (32 - c.maskLen)

/-- Block containment: every address of `small` lies in `big`. -/
def Cidr.contains (big small : Cidr) : Prop :=
  big.addr ≤ small.addr ∧ small.addr + small.size ≤ big.addr + big.size

instance : DecidablePred (fun p : Cidr × Cidr => p.1.contains p.2) :=
  fun _ => by unfold Cidr.contains; infer_instance

instance (big small : Cidr) : Decidable (big.contains small) := by
  unfold Cidr.contains; infer_instance

/-- Block disjointness: the two address ranges do not overlap. -/
def Cidr.disjoint (c d : Cidr) : Prop :=
  c.addr + c.size ≤ d.addr ∨ d.addr + d.size ≤ c.addr

instance (c d : Cidr) : Decidable (c.disjoint d) := by
  unfold Cidr.disjoint; infer_instance

/-- The open CIDR every address matches. -/
def openCidr : Cidr := ⟨ipv4 0 0 0 0, 0⟩

/-! ## Network topology data model

Transcribed from the resource declarations: subnets carry the tier named in
the source comments, routes carry the optional gateway / NAT-gateway target
exactly as the `Route` props do. -/

/-- A subnet's network-reachability class, as tagged in the source comments. -/
inductive NetworkTier where
  | isolated
  | priv
  | pub
deriving DecidableEq, Repr

/-- An `aws_subnet` declaration. -/
structure SubnetDef where
  name : String
  vpcId : String
  cidrBlock : Cidr
  availabilityZone : String
  tier : NetworkTier
deriving DecidableEq, Repr

/-- An `aws_route_table` declaration. -/
structure RouteTableDef where
  name : String
  vpcId : String
deriving DecidableEq, Repr

/-- An `aws_route_table_association` declaration. -/
structure RtAssocDef where
  routeTableId : String
  subnetId : String
deriving DecidableEq, Repr

/-- An `aws_route` declaration: destination plus exactly the target fields
the source sets (`gatewayId` or `natGatewayId`). -/
structure RouteDef where
  name : String
  routeTableId : String
  destinationCidrBlock : Cidr
  gatewayId : Option String
  natGatewayId : Option String
deriving DecidableEq, Repr

/-- An `aws_internet_gateway` declaration. -/
structure IgwDef where
  name : String
  vpcId : String
deriving DecidableEq, Repr

/-- An `aws_nat_gateway` declaration. -/
structure NatGatewayDef where
  name : String
  subnetId : String
deriving DecidableEq, Repr

/-- The composed network declarations of one stack. -/
structure NetworkTopology where
  vpcName : String
  vpcCidr : Cidr
  subnets : List SubnetDef
  routeTables : List RouteTableDef
  assocs : List RtAssocDef
  routes : List RouteDef
  internetGateways : List IgwDef
  natGateways : List NatGatewayDef
deriving DecidableEq, Repr

/-- Route tables associated with a subnet. -/
def NetworkTopology.tablesOf (t : NetworkTopology) (s : SubnetDef) : List String :=
  (t.assocs.filter (fun a => a.subnetId == s.name)).map (fun a => a.routeTableId)

/-- Default (0.0.0.0/0) routes reachable from a subnet through its
associated route tables. -/
def NetworkTopology.defaultRoutesOf (t : NetworkTopology) (s : SubnetDef) : List RouteDef :=
  t.routes.filter (fun r =>
    (t.tablesOf s).contains r.routeTableId && r.destinationCidrBlock == openCidr)

/-- The route's NAT target names a NAT gateway that is placed in a
public-tier subnet of the topology. -/
def NetworkTopology.natTargetInPublic (t : NetworkTopology) (r : RouteDef) : Bool :=
  t.natGateways.any (fun n =>
    some n.name == r.natGatewayId &&
    t.subnets.any (fun p => p.tier == .pub && p.name == n.subnetId))

/-- The route's gateway target names an internet gateway attached to the
given VPC. -/
def NetworkTopology.igwTargetOnVpc (t : NetworkTopology) (r : RouteDef) (v : String) : Bool :=
  t.internetGateways.any (fun g => some g.name == r.gatewayId && g.vpcId == v)

/-! ## The concrete topologies

`infraTopology` transcribes `setupNetworking` of src/infra/main.ts;
`part000Topology` transcribes the constructor of src/unnamed/part_000.
Both stacks hard-code the VPC CIDR 10.0.0.0/16, the four /24 sub-blocks and
the two availability zones. -/

def infraTopology : NetworkTopology :=
  { vpcName := "vpc"
    vpcCidr := ⟨ipv4 10 0 0 0, 16⟩
    subnets :=
      [ ⟨"isolated-subnet-a", "vpc", ⟨ipv4 10 0 1 0, 24⟩, "eu-central-1a", .isolated⟩
      , ⟨"isolated-subnet-b", "vpc", ⟨ipv4 10 0 2 0, 24⟩, "eu-central-1b", .isolated⟩
      , ⟨"private-subnet", "vpc", ⟨ipv4 10 0 3 0, 24⟩, "eu-central-1a", .priv⟩
      , ⟨"public-subnet", "vpc", ⟨ipv4 10 0 4 0, 24⟩, "eu-central-1a", .pub⟩ ]
    routeTables :=
      [ ⟨"public-subnet-route-table", "vpc"⟩, ⟨"private-subnet-route-table", "vpc"⟩ ]
    assocs :=
      [ ⟨"public-subnet-route-table", "public-subnet"⟩
      , ⟨"private-subnet-route-table", "private-subnet"⟩ ]
    routes :=
      [ ⟨"public-subnet-route", "public-subnet-route-table", openCidr,
          some "internet-gateway", none⟩
      , ⟨"private-subnet-route", "private-subnet-route-table", openCidr,
          none, some "nat-gateway"⟩ ]
    internetGateways := [ ⟨"internet-gateway", "vpc"⟩ ]
    natGateways := [ ⟨"nat-gateway", "public-subnet"⟩ ] }

def part000Topology : NetworkTopology :=
  { vpcName := "vpc"
    vpcCidr := ⟨ipv4 10 0 0 0, 16⟩
    subnets :=
      [ ⟨"rds-subnet-a", "vpc", ⟨ipv4 10 0 1 0, 24⟩, "eu-central-1a", .isolated⟩
      , ⟨"rds-subnet-b", "vpc", ⟨ipv4 10 0 2 0, 24⟩, "eu-central-1b", .isolated⟩
      , ⟨"glue-subnet", "vpc", ⟨ipv4 10 0 3 0, 24⟩, "eu-central-1a", .priv⟩
      , ⟨"public-subnet", "vpc", ⟨ipv4 10 0 4 0, 24⟩, "eu-central-1a", .pub⟩ ]
    routeTables :=
      [ ⟨"public-subnet-route-table", "vpc"⟩, ⟨"glue-subnet-route-table", "vpc"⟩ ]
    assocs :=
      [ ⟨"public-subnet-route-table", "public-subnet"⟩
      , ⟨"glue-subnet-route-table", "glue-subnet"⟩ ]
    routes :=
      [ ⟨"public-subnet-route", "public-subnet-route-table", openCidr,
          some "internet-gateway", none⟩
      , ⟨"glue-subnet-route", "glue-subnet-route-table", openCidr,
          none, some "nat-gateway"⟩ ]
    internetGateways := [ ⟨"internet-gateway", "vpc"⟩ ]
    natGateways := [ ⟨"nat-gateway", "public-subnet"⟩ ] }

/-! The routing invariant of claim C1, split per tier. -/

/-- The structural routing invariant over a composed topology: isolated
subnets reach no default route, the private subnet exactly one whose target
is a NAT gateway placed in a public subnet, the public subnet exactly one
whose target is an internet gateway attached to the subnet's own VPC. -/
def routingInvariant (t : NetworkTopology) : Prop :=
  ∀ s ∈ t.subnets,
    (s.tier = .isolated → t.defaultRoutesOf s = []) ∧
    (s.tier = .priv →
      (t.defaultRoutesOf s).length = 1 ∧
      ∀ r ∈ t.defaultRoutesOf s, t.natTargetInPublic r = true) ∧
    (s.tier = .pub →
      (t.defaultRoutesOf s).length = 1 ∧
      ∀ r ∈ t.defaultRoutesOf s, t.igwTargetOnVpc r s.vpcId = true)

instance (t : NetworkTopology) : Decidable (routingInvariant t) := by
  unfold routingInvariant; infer_instance

/-! ## Security group rules

An `SGRule` mirrors one `SecurityGroupRule` declaration field by field:
`securityGroupId` is the boundary the rule is attached to, and the peer is
whichever of `sourceSecurityGroupId`, `cidrBlocks`, `prefixListIds` the
source sets (the others stay `none`, exactly as in the props objects).
Security-group ids are deferred attributes; they are represented by the
logical name of the group they come from. -/

inductive Direction where
  | ingress
  | egress
deriving DecidableEq, Repr

structure SGRule where
  name : String
  direction : Direction
  fromPort : Nat
  toPort : Nat
  protocol : String
  securityGroupId : String
  sourceSecurityGroupId : Option String := none
  cidrBlocks : Option (List String) := none
  prefixListIds : Option (List String) := none
deriving DecidableEq, Repr

/-- The open CIDR string used by the sources. -/
def openCidrStr : String := "0.0.0.0/0"

/-- Rules of `setupSecurityGroups` in src/infra/main.ts. -/
def infraRules : List SGRule :=
  [ { name := "rds-security-group-ingress", direction := .ingress
      fromPort := 5432, toPort := 5432, protocol := "tcp"
      securityGroupId := "rds-security-group"
      sourceSecurityGroupId := some "glue-jobs-security-group" }
  , { name := "glue-jobs-security-group-ingress", direction := .ingress
      fromPort := 0, toPort := 65535, protocol := "tcp"
      securityGroupId := "glue-jobs-security-group"
      sourceSecurityGroupId := some "glue-jobs-security-group" }
  , { name := "glue-jobs-security-group-egress", direction := .egress
      fromPort := 0, toPort := 65535, protocol := "tcp"
      securityGroupId := "glue-jobs-security-group"
      cidrBlocks := some [openCidrStr] } ]

/-- Rules of src/main.ts: the constructor's endpoints egress, then
`setupRdsSecurity`, then the three endpoint rules of `createGlueJob`. -/
def mainRules : List SGRule :=
  [ { name := "endpoints-security-group-egress-rule", direction := .egress
      fromPort := 0, toPort := 65535, protocol := "tcp"
      securityGroupId := "endpoints-security-group"
      cidrBlocks := some [openCidrStr] }
  , { name := "rds-security-group-ingress-rule", direction := .ingress
      fromPort := 5432, toPort := 5432, protocol := "tcp"
      securityGroupId := "rds-security-group"
      sourceSecurityGroupId := some "glue-security-group" }
  , { name := "rds-security-group-egress-rule", direction := .egress
      fromPort := 5432, toPort := 5432, protocol := "tcp"
      securityGroupId := "glue-security-group"
      sourceSecurityGroupId := some "rds-security-group" }
  , { name := "glue-security-group-ingress-rule", direction := .ingress
      fromPort := 0, toPort := 65535, protocol := "tcp"
      securityGroupId := "glue-security-group"
      sourceSecurityGroupId := some "glue-security-group" }
  , { name := "glue-security-group-egress-rule", direction := .egress
      fromPort := 0, toPort := 65535, protocol := "tcp"
      securityGroupId := "glue-security-group"
      sourceSecurityGroupId := some "glue-security-group" }
  , { name := "glue-security-group-s3-endpoint-egress-rule", direction := .egress
      fromPort := 443, toPort := 443, protocol := "tcp"
      securityGroupId := "glue-security-group"
      prefixListIds := some ["s3-endpoint"] }
  , { name := "glue-security-group-endpoints-egress-rule", direction := .egress
      fromPort := 443, toPort := 443, protocol := "tcp"
      securityGroupId := "endpoints-security-group"
      sourceSecurityGroupId := some "glue-security-group" }
  , { name := "glue-security-group-endpoints-ingress-rule", direction := .ingress
      fromPort := 443, toPort := 443, protocol := "tcp"
      securityGroupId := "glue-security-group"
      sourceSecurityGroupId := some "endpoints-security-group" } ]

/-- Rules of src/unnamed/part_000: the constructor's AWS-services egress
plus `setupRdsSecurity`. -/
def part000Rules : List SGRule :=
  [ { name := "glue-security-group-egress-aws-services-rule", direction := .egress
      fromPort := 443, toPort := 443, protocol := "tcp"
      securityGroupId := "glue-security-group"
      cidrBlocks := some [openCidrStr] }
  , { name := "rds-security-group-ingress-rule", direction := .ingress
      fromPort := 5432, toPort := 5432, protocol := "tcp"
      securityGroupId := "rds-security-group"
      sourceSecurityGroupId := some "glue-security-group" }
  , { name := "rds-security-group-egress-rule", direction := .egress
      fromPort := 5432, toPort := 5432, protocol := "tcp"
      securityGroupId := "glue-security-group"
      sourceSecurityGroupId := some "rds-security-group" }
  , { name := "glue-security-group-ingress-rule", direction := .ingress
      fromPort := 0, toPort := 65535, protocol := "tcp"
      securityGroupId := "glue-security-group"
      sourceSecurityGroupId := some "glue-security-group" }
  , { name := "glue-security-group-egress-rule", direction := .egress
      fromPort := 0, toPort := 65535, protocol := "tcp"
      securityGroupId := "glue-security-group"
      sourceSecurityGroupId := some "glue-security-group" } ]

/-- All rules declared across the three stack variants. -/
def allComposedRules : List SGRule := infraRules ++ mainRules ++ part000Rules

/-! ## Rule-set queries for the permit / permitSelf properties -/

/-- Egress rules attached to boundary `A` whose peer boundary is `B`, with
the given port range and protocol. -/
def egressCnt (R : List SGRule) (A B : String) (f t : Nat) (p : String) : Nat :=
  (R.filter (fun r =>
    r.direction == .egress && r.securityGroupId == A &&
    r.sourceSecurityGroupId == some B &&
    r.fromPort == f && r.toPort == t && r.protocol == p)).length

/-- Ingress rules attached to boundary `B` whose peer boundary is `A`, with
the given port range and protocol. -/
def ingressCnt (R : List SGRule) (A B : String) (f t : Nat) (p : String) : Nat :=
  (R.filter (fun r =>
    r.direction == .ingress && r.securityGroupId == B &&
    r.sourceSecurityGroupId == some A &&
    r.fromPort == f && r.toPort == t && r.protocol == p)).length

/-- The (from, to) boundary pair a cross-boundary rule declares: for an
ingress rule the peer is the source, for an egress rule the attachment
point is the source. -/
def SGRule.flowEnds (r : SGRule) (s : String) : String × String :=
  match r.direction with
  | .ingress => (s, r.securityGroupId)
  | .egress => (r.securityGroupId, s)

/-- The permit pairing property of one rule set: every rule between two
distinct boundaries `A` and `B` belongs to a matched pair — exactly one
egress attached to `A` peering `B` and exactly one ingress attached to `B`
peering `A`, with identical port range and protocol. -/
def permitPairHolds (R : List SGRule) : Prop :=
  ∀ r ∈ R, ∀ s, r.sourceSecurityGroupId = some s → s ≠ r.securityGroupId →
    egressCnt R (r.flowEnds s).1 (r.flowEnds s).2 r.fromPort r.toPort r.protocol = 1 ∧
    ingressCnt R (r.flowEnds s).1 (r.flowEnds s).2 r.fromPort r.toPort r.protocol = 1

instance (R : List SGRule) : Decidable (permitPairHolds R) := by
  unfold permitPairHolds; infer_instance

/-- The permitSelf pairing property: every self-referential rule (peer is
the boundary itself) belongs to an ingress/egress pair on that boundary
with the same port range. -/
def selfPairHolds (R : List SGRule) : Prop :=
  ∀ r ∈ R, r.sourceSecurityGroupId = some r.securityGroupId →
    egressCnt R r.securityGroupId r.securityGroupId r.fromPort r.toPort r.protocol = 1 ∧
    ingressCnt R r.securityGroupId r.securityGroupId r.fromPort r.toPort r.protocol = 1

instance (R : List SGRule) : Decidable (selfPairHolds R) := by
  unfold selfPairHolds; infer_instance

/-- The CIDR list a rule carries (empty when its peer is not CIDR-typed). -/
def SGRule.cidrs (r : SGRule) : List String := r.cidrBlocks.getD []

/-- How many peer fields of the rule are set, counting only the two peer
types the data model of the claims admits (boundary, CIDR). -/
def peerTypeCount2 (r : SGRule) : Nat :=
  (if r.sourceSecurityGroupId.isSome then 1 else 0) +
  (if r.cidrBlocks.isSome then 1 else 0)

/-- How many peer fields of the rule are set, over all three peer types the
provider offers (boundary, CIDR, managed prefix list). -/
def peerTypeCount3 (r : SGRule) : Nat :=
  peerTypeCount2 r + (if r.prefixListIds.isSome then 1 else 0)

/-! ## Resource graphs

A property value is a sequence of atoms: literals and deferred references
(`ref node attribute`), mirroring CDKTF tokens — `rdsCluster.endpoint`
becomes `ref "rds-cluster" "endpoint"`. A template string becomes the list
of its parts; a JSON payload keeps its keys inside the literal parts.
List-valued props are flattened into one atom list per key. -/

inductive Atom where
  | lit : String → Atom
  | ref : String → String → Atom
deriving DecidableEq, Repr

/-- One resource declaration: provider kind, logical name, properties. -/
structure ResourceNode where
  kind : String
  logicalName : String
  properties : List (String × List Atom)
deriving DecidableEq, Repr

/-- The resource graph of the src/infra/main.ts stack (constructor plus
`setupNetworking`, `setupSecurityGroups`, `setupRds`, `createRDSSecret`,
`setupSecrets`, `createGlueJob`). The bodies of `setupDatabase`,
`setupMigration` and `setupReaderFunction` are not in the repository
sources; each receives only the `orm-secret-secret` node, not any
`random_password` node, so they are omitted. -/
def infraGraph : List ResourceNode :=
  [ ⟨"aws_vpc", "vpc",
      [ ("cidrBlock", [.lit "10.0.0.0/16"])
      , ("enableDnsHostnames", [.lit "true"])
      , ("enableDnsSupport", [.lit "true"]) ]⟩
  , ⟨"aws_subnet", "isolated-subnet-a",
      [ ("vpcId", [.ref "vpc" "id"])
      , ("cidrBlock", [.lit "10.0.1.0/24"])
      , ("availabilityZone", [.lit "eu-central-1a"])
      , ("mapPublicIpOnLaunch", [.lit "false"])
      , ("tags.Name", [.lit "isolated-subnet-a"]) ]⟩
  , ⟨"aws_subnet", "isolated-subnet-b",
      [ ("vpcId", [.ref "vpc" "id"])
      , ("cidrBlock", [.lit "10.0.2.0/24"])
      , ("availabilityZone", [.lit "eu-central-1b"])
      , ("mapPublicIpOnLaunch", [.lit "false"])
      , ("tags.Name", [.lit "isolated-subnet-b"]) ]⟩
  , ⟨"aws_subnet", "private-subnet",
      [ ("vpcId", [.ref "vpc" "id"])
      , ("cidrBlock", [.lit "10.0.3.0/24"])
      , ("availabilityZone", [.lit "eu-central-1a"])
      , ("mapPublicIpOnLaunch", [.lit "false"])
      , ("tags.Name", [.lit "private-subnet"]) ]⟩
  , ⟨"aws_subnet", "public-subnet",
      [ ("vpcId", [.ref "vpc" "id"])
      , ("cidrBlock", [.lit "10.0.4.0/24"])
      , ("availabilityZone", [.lit "eu-central-1a"])
      , ("tags.Name", [.lit "public-subnet"]) ]⟩
  , ⟨"aws_internet_gateway", "internet-gateway",
      [ ("vpcId", [.ref "vpc" "id"]) ]⟩
  , ⟨"aws_route_table", "public-subnet-route-table",
      [ ("vpcId", [.ref "vpc" "id"]) ]⟩
  , ⟨"aws_route_table_association", "public-subnet-route-table-association",
      [ ("routeTableId", [.ref "public-subnet-route-table" "id"])
      , ("subnetId", [.ref "public-subnet" "id"]) ]⟩
  , ⟨"aws_route", "public-subnet-route",
      [ ("routeTableId", [.ref "public-subnet-route-table" "id"])
      , ("destinationCidrBlock", [.lit "0.0.0.0/0"])
      , ("gatewayId", [.ref "internet-gateway" "id"]) ]⟩
  , ⟨"aws_eip", "elastic-ip",
      [ ("vpc", [.lit "true"]) ]⟩
  , ⟨"aws_nat_gateway", "nat-gateway",
      [ ("allocationId", [.ref "elastic-ip" "id"])
      , ("subnetId", [.ref "public-subnet" "id"]) ]⟩
  , ⟨"aws_route_table", "private-subnet-route-table",
      [ ("vpcId", [.ref "vpc" "id"]) ]⟩
  , ⟨"aws_route_table_association", "private-subnet-route-table-association",
      [ ("routeTableId", [.ref "private-subnet-route-table" "id"])
      , ("subnetId", [.ref "private-subnet" "id"]) ]⟩
  , ⟨"aws_route", "private-subnet-route",
      [ ("routeTableId", [.ref "private-subnet-route-table" "id"])
      , ("destinationCidrBlock", [.lit "0.0.0.0/0"])
      , ("natGatewayId", [.ref "nat-gateway" "id"]) ]⟩
  , ⟨"aws_s3_bucket", "glue-bucket",
      [ ("bucket", [.lit "gluescripts.akasper.codecentric.de"]) ]⟩
  , ⟨"aws_s3_bucket_public_access_block", "glue-bucket-public-access-block",
      [ ("bucket", [.ref "glue-bucket" "bucket"])
      , ("blockPublicAcls", [.lit "true"])
      , ("blockPublicPolicy", [.lit "true"])
      , ("ignorePublicAcls", [.lit "true"])
      , ("restrictPublicBuckets", [.lit "true"]) ]⟩
  , ⟨"aws_security_group", "rds-security-group",
      [ ("name", [.lit "rds-security-group"])
      , ("description", [.lit "Security group for RDS database"])
      , ("vpcId", [.ref "vpc" "id"]) ]⟩
  , ⟨"aws_security_group", "glue-jobs-security-group",
      [ ("name", [.lit "glue-jobs-security-group"])
      , ("description", [.lit "Security group for Glue jobs"])
      , ("vpcId", [.ref "vpc" "id"]) ]⟩
  , ⟨"aws_security_group_rule", "rds-security-group-ingress",
      [ ("type", [.lit "ingress"])
      , ("securityGroupId", [.ref "rds-security-group" "id"])
      , ("description", [.lit "Allow Glue jobs to access RDS"])
      , ("fromPort", [.lit "5432"])
      , ("toPort", [.lit "5432"])
      , ("protocol", [.lit "tcp"])
      , ("sourceSecurityGroupId", [.ref "glue-jobs-security-group" "id"]) ]⟩
  , ⟨"aws_security_group_rule", "glue-jobs-security-group-ingress",
      [ ("type", [.lit "ingress"])
      , ("securityGroupId", [.ref "glue-jobs-security-group" "id"])
      , ("description", [.lit "Allow incoming connections"])
      , ("fromPort", [.lit "0"])
      , ("toPort", [.lit "65535"])
      , ("protocol", [.lit "tcp"])
      , ("sourceSecurityGroupId", [.ref "glue-jobs-security-group" "id"]) ]⟩
  , ⟨"aws_security_group_rule", "glue-jobs-security-group-egress",
      [ ("type", [.lit "egress"])
      , ("securityGroupId", [.ref "glue-jobs-security-group" "id"])
      , ("description", [.lit "Allow Glue jobs to access internet"])
      , ("fromPort", [.lit "0"])
      , ("toPort", [.lit "65535"])
      , ("protocol", [.lit "tcp"])
      , ("cidrBlocks", [.lit "0.0.0.0/0"]) ]⟩
  , ⟨"aws_db_subnet_group", "rds-subnet-group",
      [ ("name", [.lit "rds-subnet-group"])
      , ("subnetIds", [.ref "isolated-subnet-a" "id", .ref "isolated-subnet-b" "id"]) ]⟩
  , ⟨"random_password", "rds-master-user-password",
      [ ("length", [.lit "48"])
      , ("special", [.lit "false"]) ]⟩
  , ⟨"aws_rds_cluster", "rds-cluster",
      [ ("clusterIdentifier", [.lit "rds-cluster"])
      , ("engine", [.lit "aurora-postgresql"])
      , ("engineMode", [.lit "provisioned"])
      , ("engineVersion", [.lit "15.3"])
      , ("databaseName", [.lit "glue"])
      , ("masterUsername", [.lit "dbadmin"])
      , ("masterPassword", [.ref "rds-master-user-password" "result"])
      , ("manageMasterUserPassword", [.lit "false"])
      , ("vpcSecurityGroupIds", [.ref "rds-security-group" "id"])
      , ("dbSubnetGroupName", [.ref "rds-subnet-group" "name"])
      , ("skipFinalSnapshot", [.lit "true"])
      , ("serverlessv2ScalingConfiguration.maxCapacity", [.lit "1"])
      , ("serverlessv2ScalingConfiguration.minCapacity", [.lit "0.5"]) ]⟩
  , ⟨"aws_rds_cluster_instance", "rds-cluster-instance",
      [ ("identifier", [.lit "rds-cluster-instance"])
      , ("clusterIdentifier", [.ref "rds-cluster" "clusterIdentifier"])
      , ("instanceClass", [.lit "db.serverless"])
      , ("engine", [.ref "rds-cluster" "engine"])
      , ("engineVersion", [.ref "rds-cluster" "engineVersion"]) ]⟩
  , ⟨"aws_secretsmanager_secret", "rds-master-secret-secret",
      [ ("name", [.lit "rds-master-secret"])
      , ("description", [.lit "RDS user secret for dbadmin"]) ]⟩
  , ⟨"aws_secretsmanager_secret_version", "rds-master-secret-secret-version",
      [ ("secretId", [.ref "rds-master-secret-secret" "id"])
      , ("secretString",
          [ .lit "dbClusterIdentifier:", .ref "rds-cluster" "clusterIdentifier"
          , .lit ", password:", .ref "rds-master-user-password" "result"
          , .lit ", dbname:", .ref "rds-cluster" "databaseName"
          , .lit ", engine:postgres, port:5432, host:", .ref "rds-cluster" "endpoint"
          , .lit ", username:dbadmin" ]) ]⟩
  , ⟨"random_password", "orm-password",
      [ ("length", [.lit "48"])
      , ("special", [.lit "false"]) ]⟩
  , ⟨"aws_secretsmanager_secret", "orm-secret-secret",
      [ ("name", [.lit "orm-secret"])
      , ("description", [.lit "RDS user secret for orm"]) ]⟩
  , ⟨"aws_secretsmanager_secret_version", "orm-secret-secret-version",
      [ ("secretId", [.ref "orm-secret-secret" "id"])
      , ("secretString",
          [ .lit "dbClusterIdentifier:", .ref "rds-cluster" "clusterIdentifier"
          , .lit ", password:", .ref "orm-password" "result"
          , .lit ", dbname:", .ref "rds-cluster" "databaseName"
          , .lit ", engine:postgres, port:5432, host:", .ref "rds-cluster" "endpoint"
          , .lit ", username:orm" ]) ]⟩
  , ⟨"random_password", "job-password",
      [ ("length", [.lit "48"])
      , ("special", [.lit "false"]) ]⟩
  , ⟨"aws_secretsmanager_secret", "job-secret-secret",
      [ ("name", [.lit "job-secret"])
      , ("description", [.lit "RDS user secret for glue"]) ]⟩
  , ⟨"aws_secretsmanager_secret_version", "job-secret-secret-version",
      [ ("secretId", [.ref "job-secret-secret" "id"])
      , ("secretString",
          [ .lit "dbClusterIdentifier:", .ref "rds-cluster" "clusterIdentifier"
          , .lit ", password:", .ref "job-password" "result"
          , .lit ", dbname:", .ref "rds-cluster" "databaseName"
          , .lit ", engine:postgres, port:5432, host:", .ref "rds-cluster" "endpoint"
          , .lit ", username:glue" ]) ]⟩
  , ⟨"aws_glue_connection", "rds-connection",
      [ ("name", [.lit "rds-connection"])
      , ("connectionProperties.JDBC_CONNECTION_URL",
          [ .lit "jdbc:postgresql://", .ref "rds-cluster" "endpoint"
          , .lit "/", .ref "rds-cluster" "databaseName" ])
      , ("connectionProperties.JDBC_ENFORCE_SSL", [.lit "true"])
      , ("connectionProperties.SECRET_ID", [.ref "job-secret-secret" "arn"])
      , ("physicalConnectionRequirements.availabilityZone",
          [.ref "private-subnet" "availabilityZone"])
      , ("physicalConnectionRequirements.securityGroupIdList",
          [.ref "glue-jobs-security-group" "id"])
      , ("physicalConnectionRequirements.subnetId", [.ref "private-subnet" "id"]) ]⟩
  , ⟨"aws_iam_policy_document", "glue-job-policy-document",
      [ ("statement.0.sid", [.lit "GlueJobAllowS3Access"])
      , ("statement.0.effect", [.lit "Allow"])
      , ("statement.0.actions", [.lit "s3:GetObject", .lit "s3:ListBucket"])
      , ("statement.0.resources",
          [.ref "glue-bucket" "arn", .lit "/*", .ref "glue-bucket" "arn"])
      , ("statement.1.sid", [.lit "GlueJobAllowRdsSecretAccess"])
      , ("statement.1.effect", [.lit "Allow"])
      , ("statement.1.actions", [.lit "secretsmanager:GetSecretValue"])
      , ("statement.1.resources", [.ref "job-secret-secret" "arn"]) ]⟩
  , ⟨"aws_iam_policy", "glue-job-policy",
      [ ("name", [.lit "glue-job-policy"])
      , ("policy", [.ref "glue-job-policy-document" "json"]) ]⟩
  , ⟨"aws_iam_role", "glue-job-role",
      [ ("name", [.lit "glue-job-role"])
      , ("assumeRolePolicy",
          [.lit "Allow sts:AssumeRole to Service glue.amazonaws.com"])
      , ("managedPolicyArns",
          [ .ref "glue-job-policy" "arn"
          , .lit "arn:aws:iam::aws:policy/service-role/AWSGlueServiceRole" ]) ]⟩
  , ⟨"aws_s3_object", "glue_job_script",
      [ ("bucket", [.ref "glue-bucket" "id"])
      , ("key", [.lit "generate_data_to_rds.py"])
      , ("source", [.lit "glue_scripts/jobs/generate_data_to_rds.py"])
      , ("sourceHash", [.lit "filemd5 of the job script"]) ]⟩
  , ⟨"aws_s3_object", "glue_job_lib",
      [ ("bucket", [.ref "glue-bucket" "id"])
      , ("key", [.lit "glue_scripts-0.1.0-py3-none-any.whl"])
      , ("source", [.lit "glue_scripts/dist/glue_scripts-0.1.0-py3-none-any.whl"])
      , ("sourceHash", [.lit "filemd5 of the wheel"]) ]⟩
  , ⟨"aws_glue_job", "glue-job",
      [ ("name", [.lit "glue-job"])
      , ("command.name", [.lit "pythonshell"])
      , ("command.pythonVersion", [.lit "3.9"])
      , ("command.scriptLocation",
          [.lit "s3://", .ref "glue-bucket" "id", .lit "/generate_data_to_rds.py"])
      , ("connections", [.ref "rds-connection" "name"])
      , ("glueVersion", [.lit "3.0"])
      , ("maxCapacity", [.lit "0.0625"])
      , ("executionClass", [.lit "STANDARD"])
      , ("defaultArguments.--enable-metrics", [.lit "true"])
      , ("defaultArguments.--job-language", [.lit "python"])
      , ("defaultArguments.library-set", [.lit "analytics"])
      , ("defaultArguments.--enable-job-insights", [.lit "false"])
      , ("defaultArguments.--extra-py-files",
          [.lit "s3://", .ref "glue-bucket" "id", .lit "/glue_scripts-0.1.0-py3-none-any.whl"])
      , ("defaultArguments.--db_secret", [.ref "job-secret-secret" "name"])
      , ("defaultArguments.--target_schema", [.lit "public"])
      , ("defaultArguments.--target_table", [.lit "data"])
      , ("roleArn", [.ref "glue-job-role" "arn"])
      , ("timeout", [.lit "60"]) ]⟩ ]

/-- The resource graph of the src/unnamed/part_000 stack (constructor plus
`setupRdsCluster`, `setupRdsClusterSecret`, `setupRdsSecurity`,
`createGlueJob`). -/
def part000Graph : List ResourceNode :=
  [ ⟨"aws_vpc", "vpc",
      [ ("cidrBlock", [.lit "10.0.0.0/16"])
      , ("enableDnsHostnames", [.lit "true"])
      , ("enableDnsSupport", [.lit "true"]) ]⟩
  , ⟨"aws_subnet", "rds-subnet-a",
      [ ("vpcId", [.ref "vpc" "id"])
      , ("cidrBlock", [.lit "10.0.1.0/24"])
      , ("availabilityZone", [.lit "eu-central-1a"])
      , ("mapPublicIpOnLaunch", [.lit "false"])
      , ("tags.Name", [.lit "rds-subnet-a"]) ]⟩
  , ⟨"aws_subnet", "rds-subnet-b",
      [ ("vpcId", [.ref "vpc" "id"])
      , ("cidrBlock", [.lit "10.0.2.0/24"])
      , ("availabilityZone", [.lit "eu-central-1b"])
      , ("mapPublicIpOnLaunch", [.lit "false"])
      , ("tags.Name", [.lit "rds-subnet-b"]) ]⟩
  , ⟨"aws_subnet", "glue-subnet",
      [ ("vpcId", [.ref "vpc" "id"])
      , ("cidrBlock", [.lit "10.0.3.0/24"])
      , ("availabilityZone", [.lit "eu-central-1a"])
      , ("mapPublicIpOnLaunch", [.lit "false"])
      , ("tags.Name", [.lit "glue-subnet"]) ]⟩
  , ⟨"aws_subnet", "public-subnet",
      [ ("vpcId", [.ref "vpc" "id"])
      , ("cidrBlock", [.lit "10.0.4.0/24"])
      , ("availabilityZone", [.lit "eu-central-1a"])
      , ("tags.Name", [.lit "public-subnet"]) ]⟩
  , ⟨"aws_internet_gateway", "internet-gateway",
      [ ("vpcId", [.ref "vpc" "id"]) ]⟩
  , ⟨"aws_route_table", "public-subnet-route-table",
      [ ("vpcId", [.ref "vpc" "id"]) ]⟩
  , ⟨"aws_route_table_association", "public-subnet-route-table-association",
      [ ("routeTableId", [.ref "public-subnet-route-table" "id"])
      , ("subnetId", [.ref "public-subnet" "id"]) ]⟩
  , ⟨"aws_route", "public-subnet-route",
      [ ("routeTableId", [.ref "public-subnet-route-table" "id"])
      , ("destinationCidrBlock", [.lit "0.0.0.0/0"])
      , ("gatewayId", [.ref "internet-gateway" "id"]) ]⟩
  , ⟨"aws_eip", "elastic-ip",
      [ ("vpc", [.lit "true"]) ]⟩
  , ⟨"aws_nat_gateway", "nat-gateway",
      [ ("allocationId", [.ref "elastic-ip" "id"])
      , ("subnetId", [.ref "public-subnet" "id"]) ]⟩
  , ⟨"aws_route_table", "glue-subnet-route-table",
      [ ("vpcId", [.ref "vpc" "id"]) ]⟩
  , ⟨"aws_route_table_association", "glue-subnet-route-table-association",
      [ ("routeTableId", [.ref "glue-subnet-route-table" "id"])
      , ("subnetId", [.ref "glue-subnet" "id"]) ]⟩
  , ⟨"aws_route", "glue-subnet-route",
      [ ("routeTableId", [.ref "glue-subnet-route-table" "id"])
      , ("destinationCidrBlock", [.lit "0.0.0.0/0"])
      , ("natGatewayId", [.ref "nat-gateway" "id"]) ]⟩
  , ⟨"aws_s3_bucket", "glue-bucket",
      [ ("bucket", [.lit "gluescripts.akasper.codecentric.de"]) ]⟩
  , ⟨"aws_s3_bucket_public_access_block", "glue-bucket-public-access-block",
      [ ("bucket", [.ref "glue-bucket" "bucket"])
      , ("blockPublicAcls", [.lit "true"])
      , ("blockPublicPolicy", [.lit "true"])
      , ("ignorePublicAcls", [.lit "true"])
      , ("restrictPublicBuckets", [.lit "true"]) ]⟩
  , ⟨"aws_security_group", "glue-security-group",
      [ ("name", [.lit "glue-security-group"])
      , ("description", [.lit "Security group for Glue job"])
      , ("vpcId", [.ref "vpc" "id"]) ]⟩
  , ⟨"aws_security_group_rule", "glue-security-group-egress-aws-services-rule",
      [ ("type", [.lit "egress"])
      , ("fromPort", [.lit "443"])
      , ("toPort", [.lit "443"])
      , ("protocol", [.lit "tcp"])
      , ("securityGroupId", [.ref "glue-security-group" "id"])
      , ("cidrBlocks", [.lit "0.0.0.0/0"]) ]⟩
  , ⟨"random_password", "rds-master-user-password",
      [ ("length", [.lit "48"])
      , ("special", [.lit "false"]) ]⟩
  , ⟨"aws_security_group", "rds-security-group",
      [ ("name", [.lit "rds-security-group"])
      , ("description", [.lit "Security group for RDS database"])
      , ("vpcId", [.ref "vpc" "id"]) ]⟩
  , ⟨"aws_security_group_rule", "rds-security-group-ingress-rule",
      [ ("type", [.lit "ingress"])
      , ("fromPort", [.lit "5432"])
      , ("toPort", [.lit "5432"])
      , ("protocol", [.lit "tcp"])
      , ("securityGroupId", [.ref "rds-security-group" "id"])
      , ("sourceSecurityGroupId", [.ref "glue-security-group" "id"]) ]⟩
  , ⟨"aws_security_group_rule", "rds-security-group-egress-rule",
      [ ("type", [.lit "egress"])
      , ("fromPort", [.lit "5432"])
      , ("toPort", [.lit "5432"])
      , ("protocol", [.lit "tcp"])
      , ("securityGroupId", [.ref "glue-security-group" "id"])
      , ("sourceSecurityGroupId", [.ref "rds-security-group" "id"]) ]⟩
  , ⟨"aws_security_group_rule", "glue-security-group-ingress-rule",
      [ ("type", [.lit "ingress"])
      , ("fromPort", [.lit "0"])
      , ("toPort", [.lit "65535"])
      , ("protocol", [.lit "tcp"])
      , ("securityGroupId", [.ref "glue-security-group" "id"])
      , ("sourceSecurityGroupId", [.ref "glue-security-group" "id"]) ]⟩
  , ⟨"aws_security_group_rule", "glue-security-group-egress-rule",
      [ ("type", [.lit "egress"])
      , ("fromPort", [.lit "0"])
      , ("toPort", [.lit "65535"])
      , ("protocol", [.lit "tcp"])
      , ("securityGroupId", [.ref "glue-security-group" "id"])
      , ("sourceSecurityGroupId", [.ref "glue-security-group" "id"]) ]⟩
  , ⟨"aws_db_subnet_group", "rds-subnet-group",
      [ ("name", [.lit "rds-subnet-group"])
      , ("subnetIds", [.ref "rds-subnet-a" "id", .ref "rds-subnet-b" "id"]) ]⟩
  , ⟨"aws_rds_cluster", "rds-cluster",
      [ ("clusterIdentifier", [.lit "rds-cluster"])
      , ("engine", [.lit "aurora-postgresql"])
      , ("engineMode", [.lit "provisioned"])
      , ("engineVersion", [.lit "15.2"])
      , ("databaseName", [.lit "glue"])
      , ("masterUsername", [.lit "gluedbadmin"])
      , ("masterPassword", [.ref "rds-master-user-password" "result"])
      , ("vpcSecurityGroupIds", [.ref "rds-security-group" "id"])
      , ("dbSubnetGroupName", [.ref "rds-subnet-group" "name"])
      , ("skipFinalSnapshot", [.lit "true"]) ]⟩
  , ⟨"aws_secretsmanager_secret", "rds-master-user-secret",
      [ ("name", [.lit "rds-master-user-secret-2"])
      , ("description", [.lit "RDS master user secret"]) ]⟩
  , ⟨"aws_secretsmanager_secret_version", "rds-master-user-secret-version",
      [ ("secretId", [.ref "rds-master-user-secret" "id"])
      , ("secretString",
          [ .lit "dbClusterIdentifier:", .ref "rds-cluster" "clusterIdentifier"
          , .lit ", password:", .ref "rds-master-user-password" "result"
          , .lit ", dbName:", .ref "rds-cluster" "databaseName"
          , .lit ", port:5432, host:", .ref "rds-cluster" "endpoint"
          , .lit ", username:gluedbadmin" ]) ]⟩
  , ⟨"aws_iam_policy_document", "glue-job-policy-document",
      [ ("statement.0.sid", [.lit "GlueJobAllowS3Access"])
      , ("statement.0.effect", [.lit "Allow"])
      , ("statement.0.actions", [.lit "s3:GetObject", .lit "s3:ListBucket"])
      , ("statement.0.resources",
          [.ref "glue-bucket" "arn", .lit "/*", .ref "glue-bucket" "arn"])
      , ("statement.1.sid", [.lit "GlueJobAllowRdsSecretAccess"])
      , ("statement.1.effect", [.lit "Allow"])
      , ("statement.1.actions", [.lit "secretsmanager:GetSecretValue"])
      , ("statement.1.resources", [.ref "rds-master-user-secret" "arn"]) ]⟩
  , ⟨"aws_iam_policy", "glue-job-policy",
      [ ("name", [.lit "glue-job-policy"])
      , ("policy", [.ref "glue-job-policy-document" "json"]) ]⟩
  , ⟨"aws_iam_role", "glue-job-role",
      [ ("name", [.lit "glue-job-role"])
      , ("assumeRolePolicy",
          [.lit "Allow sts:AssumeRole to Service glue.amazonaws.com"])
      , ("managedPolicyArns",
          [ .ref "glue-job-policy" "arn"
          , .lit "arn:aws:iam::aws:policy/service-role/AWSGlueServiceRole" ]) ]⟩
  , ⟨"aws_glue_connection", "rds-connection",
      [ ("name", [.lit "rds-connection"])
      , ("connectionProperties.JDBC_CONNECTION_URL",
          [ .lit "jdbc:postgresql://", .ref "rds-cluster" "endpoint"
          , .lit "/", .ref "rds-cluster" "databaseName" ])
      , ("connectionProperties.JDBC_ENFORCE_SSL", [.lit "true"])
      , ("connectionProperties.SECRET_ID", [.ref "rds-master-user-secret" "id"])
      , ("physicalConnectionRequirements.availabilityZone",
          [.ref "glue-subnet" "availabilityZone"])
      , ("physicalConnectionRequirements.securityGroupIdList",
          [.ref "glue-security-group" "id"])
      , ("physicalConnectionRequirements.subnetId", [.ref "glue-subnet" "id"]) ]⟩
  , ⟨"aws_s3_object", "glue_job_script",
      [ ("bucket", [.ref "glue-bucket" "id"])
      , ("key", [.lit "generate_data_to_rds.py"])
      , ("source", [.lit "glue_scripts/jobs/generate_data_to_rds.py"])
      , ("sourceHash", [.lit "filemd5 of the job script"]) ]⟩
  , ⟨"aws_s3_object", "glue_job_lib",
      [ ("bucket", [.ref "glue-bucket" "id"])
      , ("key", [.lit "glue_scripts-0.1.0-py3-none-any.whl"])
      , ("source", [.lit "glue_scripts/dist/glue_scripts-0.1.0-py3-none-any.whl"])
      , ("sourceHash", [.lit "filemd5 of the wheel"]) ]⟩
  , ⟨"aws_glue_job", "glue-job",
      [ ("name", [.lit "glue-job"])
      , ("command.name", [.lit "pythonshell"])
      , ("command.pythonVersion", [.lit "3.9"])
      , ("command.scriptLocation",
          [.lit "s3://", .ref "glue-bucket" "id", .lit "/generate_data_to_rds.py"])
      , ("connections", [.ref "rds-connection" "name"])
      , ("glueVersion", [.lit "3.0"])
      , ("maxCapacity", [.lit "0.0625"])
      , ("executionClass", [.lit "STANDARD"])
      , ("defaultArguments.--enable-metrics", [.lit "true"])
      , ("defaultArguments.--job-language", [.lit "python"])
      , ("defaultArguments.library-set", [.lit "analytics"])
      , ("defaultArguments.--enable-job-insights", [.lit "false"])
      , ("defaultArguments.--extra-py-files",
          [.lit "s3://", .ref "glue-bucket" "id", .lit "/glue_scripts-0.1.0-py3-none-any.whl"])
      , ("roleArn", [.ref "glue-job-role" "arn"])
      , ("timeout", [.lit "60"]) ]⟩ ]

/-! ## Credential flow queries (claim C3) -/

/-- Names of the credential-generation nodes of a graph. -/
def credentialNames (g : List ResourceNode) : List String :=
  (g.filter (fun r => r.kind == "random_password")).map (fun r => r.logicalName)

/-- Whether a resource's properties reference the generated value of the
credential node `p` (the deferred `result` attribute). -/
def refsCredential (p : String) (r : ResourceNode) : Bool :=
  r.properties.any (fun kv => kv.2.any (fun a =>
    match a with
    | .ref n attr => n == p && attr == "result"
    | .lit _ => false))

/-- The secret-storage version nodes whose payload references credential `p`. -/
def secretRecordsReferencing (g : List ResourceNode) (p : String) : List ResourceNode :=
  g.filter (fun r => r.kind == "aws_secretsmanager_secret_version" && refsCredential p r)

/-- The non-secret-storage resources whose properties reference credential `p`. -/
def othersReferencing (g : List ResourceNode) (p : String) : List ResourceNode :=
  g.filter (fun r => r.kind != "aws_secretsmanager_secret_version" && refsCredential p r)

/-- The containment property claim C3 states over a graph. -/
def credentialContainment (g : List ResourceNode) : Prop :=
  ∀ p ∈ credentialNames g,
    (secretRecordsReferencing g p).length ≤ 1 ∧ othersReferencing g p = []

instance (g : List ResourceNode) : Decidable (credentialContainment g) := by
  unfold credentialContainment; infer_instance

/-! ## Glue job IAM policy (claim C10)

`createGlueJob` builds the same two-statement policy document in all three
variants, parameterized by the secret passed in; the parameterized
transcription mirrors that. -/

structure PolicyStatement where
  sid : String
  effect : String
  actions : List String
  resources : List (List Atom)
deriving DecidableEq, Repr

/-- The `jobPolicyDocument` of `createGlueJob`, with the secret node the
caller passes as `rdsUserSecret` / `rdsMasterUserSecret`. -/
def glueJobPolicyDocument (secretNode : String) : List PolicyStatement :=
  [ { sid := "GlueJobAllowS3Access", effect := "Allow"
      actions := ["s3:GetObject", "s3:ListBucket"]
      resources := [[.ref "glue-bucket" "arn", .lit "/*"], [.ref "glue-bucket" "arn"]] }
  , { sid := "GlueJobAllowRdsSecretAccess", effect := "Allow"
      actions := ["secretsmanager:GetSecretValue"]
      resources := [[.ref secretNode "arn"]] } ]

/-- src/infra/main.ts passes `jobSecret` (logical node job-secret-secret). -/
def infraJobPolicyDoc : List PolicyStatement := glueJobPolicyDocument "job-secret-secret"

/-- src/main.ts passes the master user secret. -/
def mainJobPolicyDoc : List PolicyStatement := glueJobPolicyDocument "rds-master-user-secret"

/-- src/unnamed/part_000 passes the master user secret. -/
def part000JobPolicyDoc : List PolicyStatement := glueJobPolicyDocument "rds-master-user-secret"

/-- The `SECRET_ID` of the `GlueConnection` in src/main.ts
(`rdsMasterUserSecret.id`). -/
def mainConnectionSecretId : Atom := .ref "rds-master-user-secret" "id"

/-- The secret node a graph's Glue connection points at through its
`SECRET_ID` connection property. -/
def connectionSecretNode (g : List ResourceNode) : Option String :=
  match g.find? (fun r => r.kind == "aws_glue_connection") with
  | some c =>
    match c.properties.find? (fun kv => kv.1 == "connectionProperties.SECRET_ID") with
    | some kv =>
      match kv.2 with
      | [.ref n _] => some n
      | _ => none
    | none => none
  | none => none

/-- The resources of statements granting `secretsmanager:GetSecretValue`. -/
def secretGrantResources (doc : List PolicyStatement) : List (List Atom) :=
  (doc.filter (fun st => st.actions.contains "secretsmanager:GetSecretValue")).flatMap
    (fun st => st.resources)

/-- Whether a resource expression contains a wildcard in a literal part. -/
def hasWildcard (res : List Atom) : Bool :=
  res.any (fun a =>
    match a with
    | .lit s0 => s0.toList.contains '*'
    | .ref _ _ => false)

/-- Every wildcard resource of the document is the scripts-bucket object
expression and nothing else. -/
def wildcardScopedToBucket (doc : List PolicyStatement) : Prop :=
  ∀ st ∈ doc, ∀ res ∈ st.resources,
    hasWildcard res = true → res = [.ref "glue-bucket" "arn", .lit "/*"]

instance (doc : List PolicyStatement) : Decidable (wildcardScopedToBucket doc) := by
  unfold wildcardScopedToBucket; infer_instance

/-- Every statement granting the S3 read actions names only the scripts
bucket and its objects. -/
def s3ReadScopedToBucket (doc : List PolicyStatement) : Prop :=
  ∀ st ∈ doc, ("s3:GetObject" ∈ st.actions ∨ "s3:ListBucket" ∈ st.actions) →
    ∀ res ∈ st.resources,
      res = [.ref "glue-bucket" "arn", .lit "/*"] ∨ res = [.ref "glue-bucket" "arn"]

instance (doc : List PolicyStatement) : Decidable (s3ReadScopedToBucket doc) := by
  unfold s3ReadScopedToBucket; infer_instance

/-! ## Remaining topology property definitions -/

/-- Subnets of a given tier. -/
def NetworkTopology.tierSubnets (t : NetworkTopology) (tier : NetworkTier) : List SubnetDef :=
  t.subnets.filter (fun s => s.tier == tier)

/-- Every subnet's block lies inside the VPC block. -/
def subnetsWithinVpc (t : NetworkTopology) : Prop :=
  ∀ s ∈ t.subnets, t.vpcCidr.contains s.cidrBlock

instance (t : NetworkTopology) : Decidable (subnetsWithinVpc t) := by
  unfold subnetsWithinVpc; infer_instance

/-- The composition scenario of claim C7 over one topology: VPC block
10.0.0.0/16, exactly two isolated subnets in the two zones, one private and
one public subnet, all four blocks pairwise disjoint and inside the VPC. -/
def compositionScenario (t : NetworkTopology) : Prop :=
  t.vpcCidr = ⟨ipv4 10 0 0 0, 16⟩ ∧
  (t.tierSubnets .isolated).length = 2 ∧
  (t.tierSubnets .priv).length = 1 ∧
  (t.tierSubnets .pub).length = 1 ∧
  (t.tierSubnets .isolated).map SubnetDef.availabilityZone =
    ["eu-central-1a", "eu-central-1b"] ∧
  (t.subnets.map SubnetDef.cidrBlock).Pairwise Cidr.disjoint ∧
  subnetsWithinVpc t

instance (t : NetworkTopology) : Decidable (compositionScenario t) := by
  unfold compositionScenario; infer_instance

/-- The subnet nodes a graph's DB subnet group references. -/
def subnetGroupRefs (g : List ResourceNode) : List String :=
  match g.find? (fun r => r.kind == "aws_db_subnet_group") with
  | some r =>
    (r.properties.filter (fun kv => kv.1 == "subnetIds")).flatMap (fun kv =>
      kv.2.filterMap (fun a =>
        match a with
        | .ref n _ => some n
        | .lit _ => none))
  | none => []

/-- Every non-isolated subnet sits in the first isolated subnet's zone. -/
def nonIsolatedShareFirstZone (t : NetworkTopology) : Prop :=
  ∀ s ∈ t.subnets, s.tier ≠ .isolated →
    s.availabilityZone =
      (((t.tierSubnets .isolated).map SubnetDef.availabilityZone).headD "")

instance (t : NetworkTopology) : Decidable (nonIsolatedShareFirstZone t) := by
  unfold nonIsolatedShareFirstZone; infer_instance

/-- The database subnet group property of claim C9 over one stack's graph
and topology: the group references exactly the isolated subnets, whose
zones are the two distinct zones, while every other subnet shares the
first isolated zone. -/
def dbSubnetGroupMultiAz (g : List ResourceNode) (t : NetworkTopology) : Prop :=
  subnetGroupRefs g = (t.tierSubnets .isolated).map SubnetDef.name ∧
  ((t.tierSubnets .isolated).map SubnetDef.availabilityZone).Nodup ∧
  (t.tierSubnets .isolated).map SubnetDef.availabilityZone =
    ["eu-central-1a", "eu-central-1b"] ∧
  nonIsolatedShareFirstZone t

instance (g : List ResourceNode) (t : NetworkTopology) :
    Decidable (dbSubnetGroupMultiAz g t) := by
  unfold dbSubnetGroupMultiAz; infer_instance

/-! ## The spec-level network builder (claim C4) -/

/-- Failure modes of the spec-level builder. -/
inductive BuildError where
  | insufficientZonesError
deriving DecidableEq, Repr

/-- Modelled from the spec: the sources contain no `buildNetwork(cidr,
zones)` — `setupNetworking` and the part_000 constructor hard-code the two
zones — so the validating Topology Builder of spec section 4.2 is modelled
here. It partitions the supplied CIDR into /24 sub-blocks, assigns one
isolated subnet per requested zone, one private and one public subnet with
the routing of `setupNetworking`, and fails with `InsufficientZonesError`
when fewer than 2 distinct zones are supplied. -/
def buildNetwork (cidr : Cidr) (zones : List String) : Except BuildError NetworkTopology :=
  if (zones.dedup).length < 2 then
    .error .insufficientZonesError
  else
    let subBlock : Nat → Cidr := fun k => ⟨cidr.addr + k * 256, 24⟩
    let isolated := zones.enum.map (fun iz =>
      SubnetDef.mk ("isolated-subnet-" ++ toString iz.1) "vpc" (subBlock (iz.1 + 1))
        iz.2 .isolated)
    let firstZone := zones.headD ""
    .ok
      { vpcName := "vpc"
        vpcCidr := cidr
        subnets := isolated ++
          [ ⟨"private-subnet", "vpc", subBlock (zones.length + 1), firstZone, .priv⟩
          , ⟨"public-subnet", "vpc", subBlock (zones.length + 2), firstZone, .pub⟩ ]
        routeTables :=
          [ ⟨"public-subnet-route-table", "vpc"⟩, ⟨"private-subnet-route-table", "vpc"⟩ ]
        assocs :=
          [ ⟨"public-subnet-route-table", "public-subnet"⟩
          , ⟨"private-subnet-route-table", "private-subnet"⟩ ]
        routes :=
          [ ⟨"public-subnet-route", "public-subnet-route-table", openCidr,
              some "internet-gateway", none⟩
          , ⟨"private-subnet-route", "private-subnet-route-table", openCidr,
              none, some "nat-gateway"⟩ ]
        internetGateways := [ ⟨"internet-gateway", "vpc"⟩ ]
        natGateways := [ ⟨"nat-gateway", "public-subnet"⟩ ] }

/-! ## Remaining rule-set and credential property definitions -/

/-- The ingress half of the permit pairing: every cross-boundary rule's
flow has exactly one ingress rule attached to its destination boundary,
peering with its source boundary, on the same port range and protocol. -/
def permitIngressHolds (R : List SGRule) : Prop :=
  ∀ r ∈ R, ∀ s, r.sourceSecurityGroupId = some s → s ≠ r.securityGroupId →
    ingressCnt R (r.flowEnds s).1 (r.flowEnds s).2 r.fromPort r.toPort r.protocol = 1

instance (R : List SGRule) : Decidable (permitIngressHolds R) := by
  unfold permitIngressHolds; infer_instance

/-- The open-CIDR discipline of claim C5: a rule peering with the open CIDR
is egress-only and carries no boundary peer, and no ingress rule peers with
the open CIDR. -/
def openCidrDiscipline (R : List SGRule) : Prop :=
  ∀ r ∈ R,
    (openCidrStr ∈ r.cidrs → r.direction = .egress ∧ r.sourceSecurityGroupId = none) ∧
    (r.direction = .ingress → openCidrStr ∉ r.cidrs)

instance (R : List SGRule) : Decidable (openCidrDiscipline R) := by
  unfold openCidrDiscipline; infer_instance

/-- Claim C6 as stated: every rule carries exactly one of the two peer
types of the claimed data model (boundary, CIDR). -/
def onePeerTypeEach2 (R : List SGRule) : Prop :=
  ∀ r ∈ R, peerTypeCount2 r = 1

instance (R : List SGRule) : Decidable (onePeerTypeEach2 R) := by
  unfold onePeerTypeEach2; infer_instance

/-- Claim C6 amended: every rule carries exactly one of the three peer
types the provider offers (boundary, CIDR, managed prefix list). -/
def onePeerTypeEach3 (R : List SGRule) : Prop :=
  ∀ r ∈ R, peerTypeCount3 r = 1

instance (R : List SGRule) : Decidable (onePeerTypeEach3 R) := by
  unfold onePeerTypeEach3; infer_instance

/-- The property keys of a resource whose atoms reference credential `p`. -/
def propsReferencing (p : String) (r : ResourceNode) : List String :=
  (r.properties.filter (fun kv => kv.2.any (fun a =>
    match a with
    | .ref n attr => n == p && attr == "result"
    | .lit _ => false))).map (fun kv => kv.1)

/-- The amended containment property of claim C3: every credential is
referenced by at most one secret-storage version node, and the only other
resource referencing a credential is the RDS cluster, through its
`masterPassword` property alone. -/
def credentialContainmentAmended (g : List ResourceNode) : Prop :=
  ∀ p ∈ credentialNames g,
    (secretRecordsReferencing g p).length ≤ 1 ∧
    ∀ r ∈ othersReferencing g p,
      r.kind = "aws_rds_cluster" ∧ propsReferencing p r = ["masterPassword"]

instance (g : List ResourceNode) : Decidable (credentialContainmentAmended g) := by
  unfold credentialContainmentAmended; infer_instance

/-! # Claim theorems -/

/-- C1: in every composed topology, no isolated subnet's routing table
holds a default route, the private subnet's routing table holds exactly
one default route targeting a NAT gateway placed in the public subnet, and
the public subnet's routing table holds exactly one default route
targeting an internet gateway attached to the same VPC. -/
theorem c1_tiered_routing :
    routingInvariant infraTopology ∧ routingInvariant part000Topology := by
  decide

/-- C2 counterexample: in the rule set of `setupSecurityGroups`
(src/infra/main.ts), the permitted flow from the Glue-jobs boundary to the
RDS boundary has its ingress rule but no egress rule attached to the
Glue-jobs boundary peering with the RDS boundary, so the matched-pair
property fails as stated. -/
theorem c2_counterexample :
    ¬ permitPairHolds infraRules ∧
    ingressCnt infraRules "glue-jobs-security-group" "rds-security-group"
      5432 5432 "tcp" = 1 ∧
    egressCnt infraRules "glue-jobs-security-group" "rds-security-group"
      5432 5432 "tcp" = 0 := by
  decide

/-- C2 amended: in the src/main.ts and src/unnamed/part_000 rule sets every
cross-boundary permitted flow is declared by exactly one egress rule on the
source boundary and exactly one ingress rule on the destination boundary
with identical port range and protocol; in the src/infra/main.ts rule set
only the ingress half is declared per flow. -/
theorem c2_permit_pairs_amended :
    permitPairHolds mainRules ∧ permitPairHolds part000Rules ∧
    permitIngressHolds infraRules := by
  decide

/-- C3 counterexample: the master credential of src/infra/main.ts is
referenced not only by its secret-storage node but also by the RDS cluster
resource (its `masterPassword` property), so the claim that no resource
other than a SecretRecord references a credential fails as stated. -/
theorem c3_counterexample :
    ¬ credentialContainment infraGraph ∧
    "rds-master-user-password" ∈ credentialNames infraGraph ∧
    (othersReferencing infraGraph "rds-master-user-password").map
      ResourceNode.logicalName = ["rds-cluster"] := by
  decide

/-- C3 amended: in both composed graphs every generated credential is
referenced by at most one secret-storage node, and the only other resource
referencing any credential is the RDS cluster itself, through its
`masterPassword` property alone. -/
theorem c3_credential_flow_amended :
    credentialContainmentAmended infraGraph ∧
    credentialContainmentAmended part000Graph := by
  decide

/-- C4: calling the spec-level `buildNetwork` with fewer than 2 distinct
zones for the isolated tier fails with `InsufficientZonesError` and
produces no topology. -/
theorem c4_insufficient_zones (cidr : Cidr) (zones : List String)
    (h : (zones.dedup).length < 2) :
    buildNetwork cidr zones = .error .insufficientZonesError := by
  simp [buildNetwork, h]

/-- C4 witness: the one-zone list of the spec scenario triggers the error. -/
theorem c4_insufficient_zones_witness :
    ((["eu-central-1a"] : List String).dedup).length < 2 ∧
    buildNetwork ⟨ipv4 10 0 0 0, 16⟩ ["eu-central-1a"] =
      .error .insufficientZonesError :=
  ⟨by decide, c4_insufficient_zones ⟨ipv4 10 0 0 0, 16⟩ ["eu-central-1a"] (by decide)⟩

/-- C5: across all three composed rule sets, every rule peering with the
open CIDR is an egress rule with no boundary peer, no ingress rule peers
with the open CIDR, and the open-CIDR rules are exactly the three
egress-to-internet rules. -/
theorem c5_open_cidr_only_egress :
    openCidrDiscipline allComposedRules ∧
    (allComposedRules.filter (fun r => r.cidrs.contains openCidrStr)).map
      SGRule.name =
      [ "glue-jobs-security-group-egress"
      , "endpoints-security-group-egress-rule"
      , "glue-security-group-egress-aws-services-rule" ] := by
  decide

/-- C6 counterexample: the S3-endpoint egress rule of src/main.ts peers
with a managed prefix list, so it references neither a security boundary
nor a CIDR block and the boundary-xor-CIDR property fails as stated. -/
theorem c6_counterexample :
    ¬ onePeerTypeEach2 allComposedRules ∧
    (allComposedRules.filter (fun r => peerTypeCount2 r != 1)).map SGRule.name =
      ["glue-security-group-s3-endpoint-egress-rule"] := by
  decide

/-- C6 amended: every composed rule references exactly one peer, drawn from
the three peer types security boundary, CIDR block, or managed prefix
list — never more than one and never none. -/
theorem c6_one_peer_type_amended : onePeerTypeEach3 allComposedRules := by
  decide

/-- C7: both composed networks use CIDR 10.0.0.0/16 and the two zones
eu-central-1a/1b, and yield exactly 2 isolated subnets (one per zone), 1
private subnet and 1 public subnet, whose sub-blocks are pairwise disjoint
and contained in the VPC block. -/
theorem c7_composition_scenario :
    compositionScenario infraTopology ∧ compositionScenario part000Topology := by
  decide

/-- C8 counterexample: in the src/infra/main.ts rule set the Glue-jobs
boundary has a self-referential ingress rule on ports 0-65535 but no
self-referential egress rule, so the self-pair property fails as stated. -/
theorem c8_counterexample :
    ¬ selfPairHolds infraRules ∧
    ingressCnt infraRules "glue-jobs-security-group" "glue-jobs-security-group"
      0 65535 "tcp" = 1 ∧
    egressCnt infraRules "glue-jobs-security-group" "glue-jobs-security-group"
      0 65535 "tcp" = 0 := by
  decide

/-- C8 amended: in the src/main.ts and src/unnamed/part_000 rule sets the
boundary with self-referential rules carries the full ingress/egress pair
on the same port range; in src/infra/main.ts only the ingress half is
self-referential, the egress side being the single open-CIDR internet
egress covering the same port range. -/
theorem c8_self_pairs_amended :
    selfPairHolds mainRules ∧ selfPairHolds part000Rules ∧
    ingressCnt infraRules "glue-jobs-security-group" "glue-jobs-security-group"
      0 65535 "tcp" = 1 ∧
    egressCnt infraRules "glue-jobs-security-group" "glue-jobs-security-group"
      0 65535 "tcp" = 0 ∧
    (infraRules.filter (fun r =>
      r.direction == .egress && r.securityGroupId == "glue-jobs-security-group" &&
      r.cidrs.contains openCidrStr && r.fromPort == 0 && r.toPort == 65535)).length
      = 1 := by
  decide

/-- C9: in both composed graphs the database subnet group references
exactly the isolated subnets, whose availability zones are the two
distinct zones eu-central-1a and eu-central-1b, while the private and
public subnets share the first isolated subnet's zone. -/
theorem c9_db_subnet_group_multi_az :
    dbSubnetGroupMultiAz infraGraph infraTopology ∧
    dbSubnetGroupMultiAz part000Graph part000Topology := by
  decide

/-- C10: in each variant the Glue job policy grants
`secretsmanager:GetSecretValue` on exactly one secret ARN — the secret
wired to the job's Glue connection — and its S3 read actions and wildcard
resources are scoped to the scripts bucket and its objects. -/
theorem c10_job_policy_least_privilege :
    secretGrantResources infraJobPolicyDoc = [[.ref "job-secret-secret" "arn"]] ∧
    connectionSecretNode infraGraph = some "job-secret-secret" ∧
    wildcardScopedToBucket infraJobPolicyDoc ∧
    s3ReadScopedToBucket infraJobPolicyDoc ∧
    secretGrantResources mainJobPolicyDoc = [[.ref "rds-master-user-secret" "arn"]] ∧
    wildcardScopedToBucket mainJobPolicyDoc ∧
    s3ReadScopedToBucket mainJobPolicyDoc ∧
    secretGrantResources part000JobPolicyDoc =
      [[.ref "rds-master-user-secret" "arn"]] ∧
    connectionSecretNode part000Graph = some "rds-master-user-secret" ∧
    wildcardScopedToBucket part000JobPolicyDoc ∧
    s3ReadScopedToBucket part000JobPolicyDoc := by
  decide
